import Mathlib

/-!
Verification development for the Marvis barcode→instructions assistant.

The definitions below are a shallow embedding of the TypeScript source:
the barcode-resolution pipeline (`processVoiceCommandWithAI` and its
helper functions), the fallback step templates
(`generateFallbackInstructions`), the PDF locator (`findFirstValidPDF`),
the per-session voice-command state machine (`processVoiceCommand`,
`handleNextStep`, `handlePreviousStep`, ...), and the barcode token
source (`BarcodeService.getCurrentBarcode`).

External AI/search providers (Cerebras, SerpAPI, Exa, Anthropic) are
network calls in the source; they are modelled by an explicit
environment record `Env` whose fields give, for each provider call, the
value the source would observe after its own response handling
(`none` = the call errored, was unconfigured, or its response was
unusable).  JS strings that can be `null`/`undefined` are modelled as
`Option String`; the JS `x || dflt` idiom on them becomes `Option.getD`.
Timing fields (`startTime`, display timers) and log output have no
bearing on any claim and are omitted.
-/

namespace Marvis

/-! ### String helpers

`strIncludes s pat` models JS `s.includes(pat)` (substring occurrence),
`strToLower` models `s.toLowerCase()` and `strEndsWith` models
`s.endsWith(pat)`; they are written as structural recursion over the
character list so that they evaluate inside the kernel. -/

def leadsWith : List Char → List Char → Bool
  | [], _ => true
  | _ :: _, [] => false
  | p :: ps, c :: cs => p == c && leadsWith ps cs

def occursIn (pat : List Char) : List Char → Bool
  | [] => pat.isEmpty
  | c :: cs => leadsWith pat (c :: cs) || occursIn pat cs

def strIncludes (s pat : String) : Bool := occursIn pat.data s.data

def strToLower (s : String) : String := ⟨s.data.map Char.toLower⟩

def strEndsWith (s pat : String) : Bool := leadsWith pat.data.reverse s.data.reverse

/-! ### Data model (src/types.ts) -/

inductive ProjectSource where
  | hardcoded
  | barcode
  | s3
  deriving DecidableEq, Repr

structure InstructionStep where
  id : Nat
  title : String
  description : String
  details : Option (List String) := none
  tips : Option String := none
  diagram : Option (List String) := none
  deriving DecidableEq, Repr

structure Project where
  id : String
  name : String
  totalSteps : Nat
  source : ProjectSource
  steps : List InstructionStep
  deriving DecidableEq, Repr

/-! ### Search responses

`SearchItem`/`SearchResponse` model the object `searchWithGoogle` /
`searchGoogleForPDFs` build from a SerpAPI response (`items` is always an
array there; a `none` response models the `null` returned on error or
missing API key).  `ExaResult`/`ExaResponse` model `searchWithExa`. -/

structure SearchItem where
  title : Option String := none
  link : Option String := none
  snippet : Option String := none
  displayLink : Option String := none
  fileFormat : Option String := none
  mime : Option String := none
  deriving DecidableEq, Repr

structure SearchResponse where
  items : List SearchItem
  deriving DecidableEq, Repr

structure ExaResult where
  title : Option String := none
  url : String
  highlights : Option (List String) := none
  deriving DecidableEq, Repr

structure ExaResponse where
  results : List ExaResult
  deriving DecidableEq, Repr

/-- Provider environment: one field per external call site of the source.
Each field returns what the corresponding source function returns after
its own error handling, so `none` covers "API key missing", network
error, or (for `anthropicParsedSteps`) "no JSON array found in the
response".  `anthropicParsedSteps t u = some l` means the Anthropic call
for product title `t` and manual URL `u` succeeded and the first
bracketed array in the response parsed to the step list `l` (in
particular `some []` models the provider answering with the literal text
"[]"). -/
structure Env where
  identifyProductFromBarcode : String → Option String
  searchWithGoogle : String → Option SearchResponse
  searchGoogleForPDFs : String → Option SearchResponse
  searchWithExa : String → Option ExaResponse
  cerebrasAnalyzeResults : String → SearchResponse → Option String
  generateInstructionQuery : String → String → Option String
  anthropicConfigured : Bool
  anthropicParsedSteps : String → String → Option (List InstructionStep)

/-! ### Fallback step templates (`generateFallbackInstructions`)

The three literal 5-step templates returned by the source, verbatim. -/

def legoSteps : List InstructionStep :=
  [ { id := 1, title := "Open & Sort", description := "Open package and organize pieces"
    , details := some ["Open all bags", "Sort by color/size", "Check piece count"]
    , tips := some "Use small bowls to organize pieces" }
  , { id := 2, title := "Follow Instructions", description := "Start with step 1 of the manual"
    , details := some ["Locate first pieces", "Connect as shown", "Check orientation"]
    , tips := some "Work on a flat surface" }
  , { id := 3, title := "Build Base", description := "Complete the foundation"
    , details := some ["Connect base pieces", "Ensure stability", "Check alignment"]
    , tips := some "Press pieces firmly together" }
  , { id := 4, title := "Add Details", description := "Attach smaller components"
    , details := some ["Add decorative pieces", "Attach moving parts", "Check connections"]
    , tips := some "Don't force pieces" }
  , { id := 5, title := "Final Assembly", description := "Complete the model"
    , details := some ["Add final pieces", "Check all connections", "Compare to image"]
    , tips := some "Display proudly!" } ]

def furnitureSteps : List InstructionStep :=
  [ { id := 1, title := "Unpack All Parts", description := "Remove and organize components"
    , details := some ["Lay out all pieces", "Check parts list", "Organize hardware"]
    , tips := some "Keep packaging until complete" }
  , { id := 2, title := "Prepare Tools", description := "Gather necessary tools"
    , details := some ["Check included tools", "Get screwdriver if needed", "Clear workspace"]
    , tips := some "Read all instructions first" }
  , { id := 3, title := "Assemble Frame", description := "Build the main structure"
    , details := some ["Connect main panels", "Insert screws loosely", "Check alignment"]
    , tips := some "Don't fully tighten until aligned" }
  , { id := 4, title := "Add Components", description := "Attach shelves or surfaces"
    , details := some ["Position components", "Secure with hardware", "Tighten all screws"]
    , tips := some "Work systematically" }
  , { id := 5, title := "Final Steps", description := "Complete assembly"
    , details := some ["Add back panel if needed", "Attach anti-tip hardware", "Position in place"]
    , tips := some "Secure to wall for safety" } ]

def genericSteps : List InstructionStep :=
  [ { id := 1, title := "Preparation", description := "Unpack and organize"
    , details := some ["Open packaging", "Check all parts", "Read instructions"]
    , tips := some "Take your time" }
  , { id := 2, title := "Initial Assembly", description := "Start main assembly"
    , details := some ["Begin with base", "Follow diagram", "Connect main parts"]
    , tips := some "Work on flat surface" }
  , { id := 3, title := "Continue Building", description := "Add components"
    , details := some ["Attach additional parts", "Check connections", "Follow sequence"]
    , tips := some "Don't force connections" }
  , { id := 4, title := "Final Assembly", description := "Complete the build"
    , details := some ["Add final pieces", "Tighten all connections", "Check stability"]
    , tips := some "Review all steps" }
  , { id := 5, title := "Completion", description := "Finish and test"
    , details := some ["Verify assembly", "Test functionality", "Clean up"]
    , tips := some "Keep manual for reference" } ]

/-- `generateFallbackInstructions` (part_001 lines 214-336): keyword-driven
template selection on the lowercased product title. -/
def generateFallbackInstructions (productTitle : String) : List InstructionStep :=
  let isLego := strIncludes (strToLower productTitle) "lego"
  let isFurniture :=
    strIncludes (strToLower productTitle) "shelf" ||
    strIncludes (strToLower productTitle) "table" ||
    strIncludes (strToLower productTitle) "desk" ||
    strIncludes (strToLower productTitle) "chair"
  if isLego then legoSteps
  else if isFurniture then furnitureSteps
  else genericSteps

/-- `generateInstructionsFromPDF` (part_001 lines 119-212): with no API key
the fallback templates are used; otherwise the parsed step array from the
provider response is returned verbatim, and any error or missing JSON
array falls back to the templates. -/
def generateInstructionsFromPDF (env : Env) (productTitle pdfUrl : String) :
    List InstructionStep :=
  if env.anthropicConfigured then
    match env.anthropicParsedSteps productTitle pdfUrl with
    | some steps => steps
    | none => generateFallbackInstructions productTitle
  else
    generateFallbackInstructions productTitle

/-! ### Manual locator (`findFirstValidPDF`, part_001 lines 542-585) -/

/-- The manual-likelihood test applied to one search result, translated
clause by clause from the `isPDF` expression in the source. -/
def isPDFItem (item : SearchItem) : Bool :=
  let url := item.link.getD ""
  let title := item.title.getD ""
  let fileFormat := item.fileFormat.getD ""
  let mimeType := item.mime.getD ""
  strEndsWith (strToLower url) ".pdf" ||
  strIncludes (strToLower url) ".pdf" ||
  strIncludes (strToLower fileFormat) "pdf" ||
  strIncludes (strToLower mimeType) "pdf" ||
  strIncludes (strToLower title) "pdf" ||
  strIncludes url "rebrickable.com/instructions/" ||
  strIncludes url "lego.com/service/buildinginstructions/" ||
  (strIncludes (strToLower title) "instructions" &&
    (strIncludes url "rebrickable.com" ||
     strIncludes url "brickset.com" ||
     strIncludes url "bricklink.com" ||
     strIncludes (strToLower title) "lego"))

structure PDFCandidate where
  title : String
  url : String
  snippet : String
  fileFormat : String
  mimeType : String
  deriving DecidableEq, Repr

/-- The object `findFirstValidPDF` builds from the matching item. -/
def mkPDFCandidate (item : SearchItem) : PDFCandidate :=
  { title := item.title.getD ""
  , url := item.link.getD ""
  , snippet := item.snippet.getD "PDF instruction manual"
  , fileFormat := item.fileFormat.getD ""
  , mimeType := item.mime.getD "" }

/-- `findFirstValidPDF`: scan the items in order and return the first one
passing `isPDFItem`, or `none` when the results are absent/empty or no
item matches. -/
def findFirstValidPDF (searchResults : Option SearchResponse) : Option PDFCandidate :=
  match searchResults with
  | none => none
  | some resp => (resp.items.find? isPDFItem).map mkPDFCandidate

/-! ### Resolution pipeline (`processVoiceCommandWithAI`, part_001 lines 659-862) -/

/-- The process-wide `projectCache` / per-session `availableProjects`
`Map<string, Project>`, as an association list where the most recent
`set` is found first. -/
abbrev ProjectMap := List (String × Project)

def findProject (m : ProjectMap) (k : String) : Option Project :=
  (m.find? (fun e => e.1 == k)).map (fun e => e.2)

def insertProject (m : ProjectMap) (k : String) (p : Project) : ProjectMap :=
  (k, p) :: m

/-- The cache key `` `barcode_${barcode}` `` (also used as the project id). -/
def cacheKey (barcode : String) : String := "barcode_" ++ barcode

/-- The emptiness test `!r || !r.items || r.items.length === 0` used on
search responses throughout the pipeline, as its negation. -/
def nonEmptyResults : Option SearchResponse → Bool
  | none => false
  | some r => !r.items.isEmpty

/-- The deterministic fallback query list (part_001 lines 696-701). -/
def fallbackQueries (barcode : String) : List String :=
  [barcode ++ " product", "UPC " ++ barcode, "barcode " ++ barcode, barcode]

/-- The fallback loop (part_001 lines 703-713): each iteration overwrites
`productSearchResults` with the search result for the next query and
breaks on the first non-empty result; `acc` is the value the variable
holds entering the loop. -/
def runFallbacks (env : Env) : Option SearchResponse → List String → Option SearchResponse
  | acc, [] => acc
  | _, q :: qs =>
    let r := env.searchWithGoogle q
    if nonEmptyResults r then r else runFallbacks env r qs

/-- The value of `productSearchResults` after the primary search and, when
that is empty, the fallback loop (part_001 lines 691-714). -/
def productSearchAfterFallbacks (env : Env) (barcode productIdQuery : String) :
    Option SearchResponse :=
  let primary := env.searchWithGoogle productIdQuery
  if nonEmptyResults primary then primary
  else runFallbacks env primary (fallbackQueries barcode)

/-- `analyzeProductFromGoogleResults` (part_001 lines 375-423): `null` on a
missing/empty result set, otherwise the provider's answer. -/
def analyzeProductFromGoogleResults (env : Env) (barcode : String) :
    Option SearchResponse → Option String
  | none => none
  | some r => if r.items.isEmpty then none else env.cerebrasAnalyzeResults barcode r

/-- The minimal 3-step project built on the Exa degraded path (part_001
lines 724-753), verbatim. -/
def exaProject (firstResult : ExaResult) (productIdQuery barcode : String) : Project :=
  { id := cacheKey barcode
  , name := firstResult.title.getD productIdQuery
  , totalSteps := 3
  , source := .barcode
  , steps :=
    [ { id := 1, title := "Preparation", description := "Gather tools and check components"
      , details := some ["Check all parts are present", "Gather required tools"]
      , tips := match firstResult.highlights with
                | some hs => hs.head?
                | none => some "Follow manufacturer guidelines" }
    , { id := 2, title := "Assembly", description := "Follow the main assembly steps"
      , details := some ["Follow instructions carefully", "Take your time"]
      , tips := some ("Reference: " ++ firstResult.url) }
    , { id := 3, title := "Completion", description := "Final checks and cleanup"
      , details := some ["Verify all connections", "Clean up workspace"]
      , tips := some "Product identified via barcode scan" } ] }

/-- Outcome of one `processVoiceCommandWithAI` call:  the returned project
(`none` = the JS `null`), the project cache after the call, whether the
pipeline body ran (false iff the call returned straight from the cache),
and whether the Exa secondary provider was consulted. -/
structure PipelineResult where
  project : Option Project
  cache : ProjectMap
  pipelineRan : Bool
  usedExa : Bool
  deriving DecidableEq, Repr

/-- Project assembly shared by the PDF-found and no-PDF branches of the
pipeline (part_001 lines 805-813 and 842-850, identical up to the URL
handed to the step generator). -/
def buildProject (env : Env) (barcode productTitle pdfUrl : String) : Project :=
  let steps := generateInstructionsFromPDF env productTitle pdfUrl
  { id := cacheKey barcode, name := productTitle, totalSteps := steps.length
  , source := .barcode, steps := steps }

/-- Pipeline steps 7-9 (part_001 lines 792-857): PDF-biased search, retry
with the unbiased query on empty, manual location, step synthesis (with
the located URL, or `""` when none was found), assembly and caching.
Both source branches assemble, cache and return the project identically,
differing only in the URL passed to `generateInstructionsFromPDF`. -/
def resolveInstructions (env : Env) (cache : ProjectMap)
    (barcode productTitle instructionQuery : String) : PipelineResult :=
  let pdfResults := env.searchGoogleForPDFs instructionQuery
  let instructionResults :=
    if nonEmptyResults pdfResults then pdfResults
    else env.searchWithGoogle instructionQuery
  let firstPDF :=
    if nonEmptyResults instructionResults then findFirstValidPDF instructionResults
    else none
  let project := buildProject env barcode productTitle ((firstPDF.map (·.url)).getD "")
  { project := some project
  , cache := insertProject cache (cacheKey barcode) project
  , pipelineRan := true, usedExa := false }

/-- `processVoiceCommandWithAI` (part_001 lines 659-862).  S3 upload and
glasses display are effect-only and omitted; every branch of the control
flow is kept. -/
def processVoiceCommandWithAI (env : Env) (cache : ProjectMap)
    (voiceCommand barcode : String) : PipelineResult :=
  match findProject cache (cacheKey barcode) with
  | some cachedProject =>
    { project := some cachedProject, cache := cache, pipelineRan := false, usedExa := false }
  | none =>
    match env.identifyProductFromBarcode barcode with
    | none => { project := none, cache := cache, pipelineRan := true, usedExa := false }
    | some productIdQuery =>
      let productSearchResults := productSearchAfterFallbacks env barcode productIdQuery
      if nonEmptyResults productSearchResults then
        match analyzeProductFromGoogleResults env barcode productSearchResults with
        | none => { project := none, cache := cache, pipelineRan := true, usedExa := false }
        | some productTitle =>
          match env.generateInstructionQuery voiceCommand productTitle with
          | none => { project := none, cache := cache, pipelineRan := true, usedExa := false }
          | some instructionQuery =>
            resolveInstructions env cache barcode productTitle instructionQuery
      else
        match env.searchWithExa productIdQuery with
        | none => { project := none, cache := cache, pipelineRan := true, usedExa := true }
        | some exaResults =>
          match exaResults.results with
          | [] => { project := none, cache := cache, pipelineRan := true, usedExa := true }
          | firstResult :: _ =>
            { project := some (exaProject firstResult productIdQuery barcode)
            , cache := cache, pipelineRan := true, usedExa := true }

/-! ### Hosted-dataset project (`loadS3Data`, part_001 lines 927-953) -/

structure S3Step where
  step_number : Nat
  description : String
  parts_used : List String
  deriving DecidableEq, Repr

structure S3Data where
  productName : String
  productBrand : String
  steps : List S3Step
  safety_warnings : List String
  deriving DecidableEq, Repr

/-- The per-index step mapping inside `loadS3Data`:
`steps.map((step, index) => ({ id: index + 1, ... }))`. -/
def s3StepOfIndexed (d : S3Data) (is : Nat × S3Step) : InstructionStep :=
  { id := is.1 + 1
  , title := "Step " ++ toString is.2.step_number
  , description := is.2.description
  , details := some is.2.parts_used
  , tips := some ((d.safety_warnings.head?).getD "Follow safety guidelines") }

/-- The `s3Project` object built by `loadS3Data`. -/
def s3Project (d : S3Data) : Project :=
  { id := "s3_product"
  , name := d.productName ++ " (" ++ d.productBrand ++ ")"
  , totalSteps := d.steps.length
  , source := .s3
  , steps := (d.steps.enum).map (s3StepOfIndexed d) }

/-! ### Session state machine (part_001 lines 1075-1332) -/

inductive AppState where
  | welcome
  | selecting
  | building
  | completed
  deriving DecidableEq, Repr

/-- Per-session mutable record (`this.sessions` entries); `startTime` is
timing-only and omitted. -/
structure SessState where
  appState : AppState
  currentProject : Option Project
  currentStep : Nat
  availableProjects : ProjectMap
  stepsGenerated : Bool
  deriving DecidableEq, Repr

/-- `handleNextStep` (lines 1268-1286).  `currentStep < totalSteps - 1`
over ℕ agrees with the JS number comparison for every `currentStep ≥ 0`:
for `totalSteps = 0` both sides are false. -/
def handleNextStep (st : SessState) : SessState :=
  match st.currentProject with
  | none => st
  | some p =>
    if st.currentStep < p.totalSteps - 1 then
      { st with currentStep := st.currentStep + 1 }
    else
      { st with appState := .completed }

/-- `handlePreviousStep` (lines 1288-1295). -/
def handlePreviousStep (st : SessState) : SessState :=
  match st.currentProject with
  | none => st
  | some _ =>
    if st.currentStep ≤ 0 then st
    else { st with currentStep := st.currentStep - 1 }

/-- `handleNewProject` (lines 1297-1309). -/
def handleNewProject (st : SessState) : SessState :=
  { st with appState := .selecting, currentStep := 0, currentProject := none
          , stepsGenerated := false }

/-- `handleProjectSelection` (lines 1311-1332). -/
def handleProjectSelection (st : SessState) (projectId : String) : SessState :=
  match findProject st.availableProjects projectId with
  | none => st
  | some project =>
    { st with appState := .building, currentProject := some project, currentStep := 0 }

/-- `processVoiceCommand` (lines 1075-1138); `currentBarcode` is the
process-wide `CURRENT_BARCODE`.  The `welcome` branch only renders text;
the `repeat` branch re-renders without moving the index. -/
def processVoiceCommand (st : SessState) (currentBarcode : Option String)
    (command : String) : SessState :=
  match st.appState with
  | .welcome => st
  | .selecting =>
    match currentBarcode with
    | some bc =>
      if (findProject st.availableProjects (cacheKey bc)).isSome then
        handleProjectSelection st (cacheKey bc)
      else if (findProject st.availableProjects "s3_product").isSome then
        handleProjectSelection st "s3_product"
      else st
    | none =>
      if (findProject st.availableProjects "s3_product").isSome then
        handleProjectSelection st "s3_product"
      else st
  | .building =>
    match st.currentProject with
    | none => st
    | some _ =>
      if strIncludes command "next" || strIncludes command "continue" ||
         strIncludes command "forward" then
        handleNextStep st
      else if strIncludes command "back" || strIncludes command "previous" ||
              strIncludes command "last" then
        handlePreviousStep st
      else if strIncludes command "repeat" || strIncludes command "again" ||
              strIncludes command "what" then
        st
      else if strIncludes command "start over" || strIncludes command "restart" ||
              strIncludes command "beginning" then
        { st with currentStep := 0 }
      else st
  | .completed =>
    if strIncludes command "new" || strIncludes command "another" ||
       strIncludes command "different" then
      handleNewProject st
    else st

/-- The step-index bound the spec states for sessions whose active project
has at least one step. -/
def stepIndexInv (st : SessState) : Prop :=
  ∀ p, st.currentProject = some p → 1 ≤ p.totalSteps → st.currentStep < p.totalSteps

/-! ### Token source (`BarcodeService.getCurrentBarcode`, part_000 lines 18-59) -/

structure BarcodeState where
  cachedBarcode : Option String
  lastFetch : Nat
  deriving DecidableEq, Repr

/-- What one S3 fetch attempt would yield: `success b` is a 2xx response
whose `barcode` field is `b` (`none` = field missing or empty, both falsy
in JS), `failure` is a thrown error (network/timeout/non-2xx). -/
inductive FetchOutcome where
  | success (barcode : Option String)
  | failure
  deriving DecidableEq, Repr

def cacheTimeout : Nat := 30000

/-- `getCurrentBarcode`, with the clock and the fetch outcome passed
explicitly.  Returns the result and the updated service state.  ℕ
subtraction truncates a negative `now - lastFetch` to 0, which the TTL
test treats the same way JS does (< 30000 holds either way). -/
def getCurrentBarcode (st : BarcodeState) (now : Nat) (fetch : FetchOutcome) :
    Option String × BarcodeState :=
  if st.cachedBarcode.isSome ∧ now - st.lastFetch < cacheTimeout then
    (st.cachedBarcode, st)
  else
    match fetch with
    | .success (some b) => (some b, { cachedBarcode := some b, lastFetch := now })
    | .success none => (none, st)
    | .failure => (st.cachedBarcode, st)

/-! ### Welcome-phase re-entry (`handleVoiceTranscription`, part_001 lines 1020-1073)

The handler is `async`: its guard `state.state === 'welcome' &&
!state.stepsGenerated` runs synchronously when a final transcription
arrives, the resolution is then awaited, and `stepsGenerated` is set only
in the continuation and only when the resolution returned a project.
`concStep` is the event-level model: `command` is a final transcription
arriving in some phase, `settle b` is one in-flight resolution finishing
(`b` = it produced a project).  `inFlight` counts resolutions started and
not yet settled. -/

structure ConcState where
  appState : AppState
  stepsGenerated : Bool
  inFlight : Nat
  deriving DecidableEq, Repr

inductive ConcEvent where
  | command
  | settle (success : Bool)
  deriving DecidableEq, Repr

def concStep (st : ConcState) : ConcEvent → ConcState
  | .command =>
    if st.appState = .welcome ∧ st.stepsGenerated = false then
      { st with inFlight := st.inFlight + 1 }
    else st
  | .settle success =>
    if 0 < st.inFlight then
      if success then
        { st with inFlight := st.inFlight - 1, stepsGenerated := true
                , appState := .building }
      else
        { st with inFlight := st.inFlight - 1 }
    else st

/-! ### Spec-side predicate: contiguous 1-based step ordinals -/

/-- `ordinalsFrom k steps` holds when the step ids read `k, k+1, ...`. -/
def ordinalsFrom : Nat → List InstructionStep → Bool
  | _, [] => true
  | k, s :: rest => s.id == k && ordinalsFrom (k + 1) rest

/-- Follows the spec's words: `steps[i].ordinal == i+1` for all valid `i`. -/
def ordinalsContiguous (steps : List InstructionStep) : Bool :=
  ordinalsFrom 1 steps

/-! ### Concrete fixtures used by witnesses and counterexamples -/

/-- A product page hit that is not manual-like. -/
def itemAcme : SearchItem :=
  { title := some "Acme Widget", link := some "https://example.com/acme"
  , snippet := some "Acme Widget product page", displayLink := some "example.com" }

/-- A manual hit whose link contains and ends in ".pdf". -/
def itemManualPDF : SearchItem :=
  { title := some "Acme Widget assembly manual"
  , link := some "https://example.com/acme-manual.pdf"
  , snippet := some "Official manual" }

/-- A later manual hit that also qualifies. -/
def itemOtherPDF : SearchItem :=
  { title := some "Other guide", link := some "https://example.org/other.PDF" }

def exaAcme : ExaResult :=
  { title := some "Acme Widget Manual", url := "https://acme.example/manual"
  , highlights := some ["Check parts first"] }

/-- All providers down / unconfigured. -/
def envOffline : Env :=
  { identifyProductFromBarcode := fun _ => none
  , searchWithGoogle := fun _ => none
  , searchGoogleForPDFs := fun _ => none
  , searchWithExa := fun _ => none
  , cerebrasAnalyzeResults := fun _ _ => none
  , generateInstructionQuery := fun _ _ => none
  , anthropicConfigured := false
  , anthropicParsedSteps := fun _ _ => none }

/-- Normal path, Anthropic unconfigured: primary search succeeds, no PDF is
found, generic fallback steps are synthesized and the project is cached. -/
def envNormal : Env :=
  { envOffline with
    identifyProductFromBarcode := fun _ => some "0123 product"
  , searchWithGoogle := fun _ => some ⟨[itemAcme]⟩
  , cerebrasAnalyzeResults := fun _ _ => some "Acme Widget"
  , generateInstructionQuery := fun _ _ => some "Acme Widget assembly instructions" }

/-- Primary search and every fallback query empty, Exa succeeds. -/
def envExaOnly : Env :=
  { envOffline with
    identifyProductFromBarcode := fun _ => some "0123 product"
  , searchWithExa := fun _ => some ⟨[exaAcme]⟩ }

/-- Title identified but instruction-query composition fails. -/
def envNoInstrQuery : Env :=
  { envNormal with generateInstructionQuery := fun _ _ => none }

/-- Anthropic configured and answering with a step array whose ids are not
positional (models a response such as `[{"id": 7, ...}]`). -/
def stepSeven : InstructionStep :=
  { id := 7, title := "Attach legs", description := "Attach the legs to the tabletop" }

def envBadOrdinals : Env :=
  { envNormal with
    searchGoogleForPDFs := fun _ => some ⟨[itemManualPDF]⟩
  , anthropicConfigured := true
  , anthropicParsedSteps := fun _ _ => some [stepSeven] }

/-- Anthropic configured and answering with the literal text "[]". -/
def envEmptyArray : Env :=
  { envOffline with
    anthropicConfigured := true
  , anthropicParsedSteps := fun _ _ => some [] }

def respA : SearchResponse := ⟨[itemAcme]⟩

def respB : SearchResponse := ⟨[itemManualPDF]⟩

/-- Distinguishes the query order: the primary product-id query fails, the
query `"0123 product"` and the raw token `"0123"` both succeed but with
different results. -/
def envOrderProbe : Env :=
  { envOffline with
    identifyProductFromBarcode := fun _ => some "idq"
  , searchWithGoogle := fun q =>
      if q == "0123 product" then some respA
      else if q == "0123" then some respB
      else none }

/-- The project the normal path produces for `envNormal` and barcode "0123". -/
def projAcme : Project :=
  { id := "barcode_0123", name := "Acme Widget", totalSteps := 5
  , source := .barcode, steps := genericSteps }

example : (processVoiceCommandWithAI envNormal [] "build" "0123").project = some projAcme := by decide
example : (processVoiceCommandWithAI envNormal [] "build" "0123").cache
    = [("barcode_0123", projAcme)] := by decide
example : (processVoiceCommandWithAI envExaOnly [] "build" "0123").project
    = some (exaProject exaAcme "0123 product" "0123") := by decide
example : (processVoiceCommandWithAI envExaOnly [] "build" "0123").cache = [] := by decide
example : (processVoiceCommandWithAI envNoInstrQuery [] "build" "0123").project = none := by decide
example : (processVoiceCommandWithAI envBadOrdinals [] "build" "0123").project.map (·.steps)
    = some [stepSeven] := by decide
example : generateInstructionsFromPDF envEmptyArray "Acme Widget" "u" = [] := by decide
example : productSearchAfterFallbacks envOrderProbe "0123" "idq" = some respA := by decide

/-! ### Helper lemmas -/

theorem findProject_insert (m : ProjectMap) (k : String) (p : Project) :
    findProject (insertProject m k p) k = some p := by
  simp [findProject, insertProject, List.find?]

theorem pvc_cache_hit (env : Env) (cache : ProjectMap) (cmd B : String) (P : Project)
    (h : findProject cache (cacheKey B) = some P) :
    processVoiceCommandWithAI env cache cmd B =
      { project := some P, cache := cache, pipelineRan := false, usedExa := false } := by
  unfold processVoiceCommandWithAI
  rw [h]

theorem resolveInstructions_shape (env : Env) (cache : ProjectMap)
    (barcode productTitle instructionQuery : String) :
    ∃ p, resolveInstructions env cache barcode productTitle instructionQuery =
      { project := some p, cache := insertProject cache (cacheKey barcode) p
      , pipelineRan := true, usedExa := false } :=
  ⟨_, rfl⟩

/-- After a call that returned a project without consulting Exa, the cache
maps the barcode's key to that project. -/
theorem pvc_nonExa_success_cached (env : Env) (cache : ProjectMap) (cmd B : String) (P : Project)
    (hexa : (processVoiceCommandWithAI env cache cmd B).usedExa = false)
    (hp : (processVoiceCommandWithAI env cache cmd B).project = some P) :
    findProject ((processVoiceCommandWithAI env cache cmd B).cache) (cacheKey B) = some P := by
  cases hfp : findProject cache (cacheKey B) with
  | some q =>
    rw [pvc_cache_hit env cache cmd B q hfp] at hp ⊢
    simp only [Option.some.injEq] at hp
    rw [← hp]
    exact hfp
  | none =>
    cases hid : env.identifyProductFromBarcode B with
    | none =>
      simp [processVoiceCommandWithAI, hfp, hid] at hp
    | some q =>
      by_cases hne : nonEmptyResults (productSearchAfterFallbacks env B q) = true
      · cases ht : analyzeProductFromGoogleResults env B (productSearchAfterFallbacks env B q) with
        | none => simp [processVoiceCommandWithAI, hfp, hid, hne, ht] at hp
        | some t =>
          cases hq : env.generateInstructionQuery cmd t with
          | none => simp [processVoiceCommandWithAI, hfp, hid, hne, ht, hq] at hp
          | some iq =>
            obtain ⟨p, hshape⟩ := resolveInstructions_shape env cache B t iq
            simp only [processVoiceCommandWithAI, hfp, hid, hne, if_true, ht, hq, hshape,
              Option.some.injEq] at hp ⊢
            rw [← hp]
            exact findProject_insert cache (cacheKey B) p
      · cases hx : env.searchWithExa q with
        | none => simp [processVoiceCommandWithAI, hfp, hid, hne, hx] at hexa
        | some ex =>
          cases hres : ex.results with
          | nil => simp [processVoiceCommandWithAI, hfp, hid, hne, hx, hres] at hexa
          | cons r rs => simp [processVoiceCommandWithAI, hfp, hid, hne, hx, hres] at hexa

/-! ### C1 — resolution caching -/

/-- C1 (counterexample): the secondary-provider (Exa) degraded path does
not write the project cache, so after a successful degraded-path
resolution for barcode "0123" a second call with the same barcode runs
the full pipeline again — refuting "at most once ... regardless of which
path produced the first result". -/
theorem C1_counterexample :
    (processVoiceCommandWithAI envExaOnly [] "start" "0123").project.isSome = true
  ∧ (processVoiceCommandWithAI envExaOnly [] "start" "0123").pipelineRan = true
  ∧ (processVoiceCommandWithAI envExaOnly
      ((processVoiceCommandWithAI envExaOnly [] "start" "0123").cache)
      "start" "0123").pipelineRan = true := by
  decide

/-- C1 (amended): a cache entry for the barcode is returned immediately
without running the pipeline, and after any successful resolution that
did not go through the secondary (Exa) provider, a later call with the
same barcode returns exactly the cached project without re-running the
pipeline.  (The degraded Exa path does not cache, see the
counterexample.) -/
theorem C1_resolve_cached_amended (env : Env) (cache : ProjectMap)
    (cmd cmd2 B : String) (P : Project) :
    (findProject cache (cacheKey B) = some P →
      processVoiceCommandWithAI env cache cmd B =
        { project := some P, cache := cache, pipelineRan := false, usedExa := false })
  ∧ ((processVoiceCommandWithAI env cache cmd B).usedExa = false →
      (processVoiceCommandWithAI env cache cmd B).project = some P →
      processVoiceCommandWithAI env ((processVoiceCommandWithAI env cache cmd B).cache) cmd2 B =
        { project := some P, cache := (processVoiceCommandWithAI env cache cmd B).cache
        , pipelineRan := false, usedExa := false }) := by
  constructor
  · exact fun h => pvc_cache_hit env cache cmd B P h
  · intro hexa hp
    exact pvc_cache_hit env _ cmd2 B P (pvc_nonExa_success_cached env cache cmd B P hexa hp)

/-- C1 (witness): for the concrete normal-path environment the second call
returns the cached project without running the pipeline. -/
theorem C1_resolve_cached_amended_witness :
    processVoiceCommandWithAI envNormal
      ((processVoiceCommandWithAI envNormal [] "build" "0123").cache) "next" "0123"
    = { project := some projAcme
      , cache := (processVoiceCommandWithAI envNormal [] "build" "0123").cache
      , pipelineRan := false, usedExa := false } :=
  (C1_resolve_cached_amended envNormal [] "build" "next" "0123" projAcme).2
    (by decide) (by decide)

/-! ### C3 — no outward failure after the title is known -/

/-- C3 (counterexample): with `envNoInstrQuery` the pipeline identifies the
product title "Acme Widget" (step 5 succeeds on the pipeline's own search
results), yet the resolution returns absent, because instruction-query
composition — one of the stages the claim says degrades instead of
failing — returns `none`. -/
theorem C3_counterexample :
    analyzeProductFromGoogleResults envNoInstrQuery "0123"
      (productSearchAfterFallbacks envNoInstrQuery "0123" "0123 product") = some "Acme Widget"
  ∧ envNoInstrQuery.identifyProductFromBarcode "0123" = some "0123 product"
  ∧ (processVoiceCommandWithAI envNoInstrQuery [] "build" "0123").project = none := by
  decide

/-- C3 (amended): only once the instruction query has also been composed
(step 6) can the pipeline no longer fail outward: manual search, manual
location, step synthesis and persistence all degrade to generic content
and a project is always returned.  (Failure of instruction-query
composition itself still yields absent, see the counterexample.) -/
theorem C3_no_fail_after_query_amended (env : Env) (cache : ProjectMap)
    (cmd B q title iq : String)
    (hc : findProject cache (cacheKey B) = none)
    (hid : env.identifyProductFromBarcode B = some q)
    (hne : nonEmptyResults (productSearchAfterFallbacks env B q) = true)
    (ht : analyzeProductFromGoogleResults env B (productSearchAfterFallbacks env B q) = some title)
    (hq : env.generateInstructionQuery cmd title = some iq) :
    (processVoiceCommandWithAI env cache cmd B).project.isSome = true := by
  obtain ⟨p, hshape⟩ := resolveInstructions_shape env cache B title iq
  simp [processVoiceCommandWithAI, hc, hid, hne, ht, hq, hshape]

/-- C3 (witness): the amended theorem applied to the concrete normal-path
environment. -/
theorem C3_no_fail_after_query_amended_witness :
    (processVoiceCommandWithAI envNormal [] "build" "0123").project.isSome = true :=
  C3_no_fail_after_query_amended envNormal [] "build" "0123" "0123 product"
    "Acme Widget" "Acme Widget assembly instructions"
    (by decide) (by decide) (by decide) (by decide) (by decide)

/-! ### C4 — secondary-provider degraded path -/

/-- C4: when the primary search is empty for the product-id query and every
deterministic fallback query, and Exa returns at least one result, the
pipeline returns the minimal 3-step project named from Exa's top result
title (falling back to the product-id query when the title is absent),
and the anthropic step-synthesis provider plays no part in the result. -/
theorem C4_degraded_path (env : Env) (cache : ProjectMap) (cmd B q : String)
    (r : ExaResult) (rest : List ExaResult)
    (hc : findProject cache (cacheKey B) = none)
    (hid : env.identifyProductFromBarcode B = some q)
    (hne : nonEmptyResults (productSearchAfterFallbacks env B q) = false)
    (hx : env.searchWithExa q = some ⟨r :: rest⟩) :
    (processVoiceCommandWithAI env cache cmd B).project = some (exaProject r q B)
  ∧ (exaProject r q B).totalSteps = 3
  ∧ (exaProject r q B).steps.length = 3
  ∧ (exaProject r q B).name = r.title.getD q
  ∧ (∀ k f, processVoiceCommandWithAI
      { env with anthropicConfigured := k, anthropicParsedSteps := f } cache cmd B
      = processVoiceCommandWithAI env cache cmd B) := by
  refine ⟨?_, rfl, rfl, rfl, ?_⟩
  · simp [processVoiceCommandWithAI, hc, hid, hne, hx]
  · intro k f
    simp only [processVoiceCommandWithAI]
    rw [show ({ env with anthropicConfigured := k, anthropicParsedSteps := f } : Env).identifyProductFromBarcode = env.identifyProductFromBarcode from rfl]
    rw [show productSearchAfterFallbacks { env with anthropicConfigured := k, anthropicParsedSteps := f } B = productSearchAfterFallbacks env B from rfl]
    simp [hc, hid, hne, hx]

/-- C4 (witness): the degraded path for the concrete Exa-only environment. -/
theorem C4_degraded_path_witness :
    (processVoiceCommandWithAI envExaOnly [] "start" "0123").project
      = some (exaProject exaAcme "0123 product" "0123") :=
  (C4_degraded_path envExaOnly [] "start" "0123" "0123 product" exaAcme []
    (by decide) (by decide) (by decide) (by decide)).1

/-! ### C9 — fallback query chain -/

/-- C9 (counterexample): the first deterministic fallback query is
`"<token> product"`, not the raw token: for barcode "0123" the concrete
environment `envOrderProbe` answers both `"0123 product"` and the raw
token `"0123"` with different non-empty results, and the pipeline's
fallback chain picks the `"0123 product"` one — under the claimed order
(raw token first) it would have picked the other. -/
theorem C9_counterexample :
    fallbackQueries "0123" = ["0123 product", "UPC 0123", "barcode 0123", "0123"]
  ∧ fallbackQueries "0123" ≠ ["0123", "UPC 0123", "barcode 0123", "0123"]
  ∧ productSearchAfterFallbacks envOrderProbe "0123" "idq" = some respA
  ∧ envOrderProbe.searchWithGoogle "0123" = some respB
  ∧ respA ≠ respB := by
  decide

/-- C9 (amended): on an empty primary result the pipeline tries, in this
exact order, `"<token> product"`, `"UPC <token>"`, `"barcode <token>"`,
`"<token>"` against the primary provider, stopping at the first
non-empty result, and the secondary (Exa) provider is consulted exactly
when the cache missed, a product-id query was composed, and the primary
search and every fallback query came back empty. -/
theorem C9_fallback_chain_amended :
    (∀ B, fallbackQueries B = [B ++ " product", "UPC " ++ B, "barcode " ++ B, B])
  ∧ (∀ (env : Env) (acc : Option SearchResponse) (q : String) (qs : List String),
      nonEmptyResults (env.searchWithGoogle q) = true →
      runFallbacks env acc (q :: qs) = env.searchWithGoogle q)
  ∧ (∀ (env : Env) (acc : Option SearchResponse) (q : String) (qs : List String),
      nonEmptyResults (env.searchWithGoogle q) = false →
      runFallbacks env acc (q :: qs) = runFallbacks env (env.searchWithGoogle q) qs)
  ∧ (∀ (env : Env) (cache : ProjectMap) (cmd B : String),
      (processVoiceCommandWithAI env cache cmd B).usedExa = true ↔
        findProject cache (cacheKey B) = none ∧
        ∃ q, env.identifyProductFromBarcode B = some q ∧
          nonEmptyResults (productSearchAfterFallbacks env B q) = false) := by
  refine ⟨fun B => rfl, ?_, ?_, ?_⟩
  · intro env acc q qs h
    simp [runFallbacks, h]
  · intro env acc q qs h
    simp [runFallbacks, h]
  · intro env cache cmd B
    cases hfp : findProject cache (cacheKey B) with
    | some P => simp [pvc_cache_hit env cache cmd B P hfp, hfp]
    | none =>
      cases hid : env.identifyProductFromBarcode B with
      | none => simp [processVoiceCommandWithAI, hfp, hid]
      | some q =>
        by_cases hne : nonEmptyResults (productSearchAfterFallbacks env B q) = true
        · cases ht : analyzeProductFromGoogleResults env B (productSearchAfterFallbacks env B q) with
          | none => simp [processVoiceCommandWithAI, hfp, hid, hne, ht]
          | some t =>
            cases hq : env.generateInstructionQuery cmd t with
            | none => simp [processVoiceCommandWithAI, hfp, hid, hne, ht, hq]
            | some iq =>
              obtain ⟨p, hshape⟩ := resolveInstructions_shape env cache B t iq
              simp [processVoiceCommandWithAI, hfp, hid, hne, ht, hq, hshape]
        · rw [Bool.not_eq_true] at hne
          cases hx : env.searchWithExa q with
          | none => simp [processVoiceCommandWithAI, hfp, hid, hne, hx]
          | some ex =>
            cases hres : ex.results with
            | nil =>
              have hx' : env.searchWithExa q = some ⟨[]⟩ := by rw [hx, ← hres]
              simp [processVoiceCommandWithAI, hfp, hid, hne, hx']
            | cons r rs =>
              have hx' : env.searchWithExa q = some ⟨r :: rs⟩ := by rw [hx, ← hres]
              simp [processVoiceCommandWithAI, hfp, hid, hne, hx']

/-- C9 (witness): the amended chain lemmas applied to the concrete
order-probing environment. -/
theorem C9_fallback_chain_amended_witness :
    runFallbacks envOrderProbe none (fallbackQueries "0123") = some respA :=
  C9_fallback_chain_amended.2.1 envOrderProbe none "0123 product"
    ["UPC 0123", "barcode 0123", "0123"] (by decide)

/-! ### C2 — contiguous 1-based step ordinals -/

theorem ordinalsFrom_enumFrom_map (d : S3Data) (l : List S3Step) :
    ∀ k : Nat, ordinalsFrom (k + 1) ((l.enumFrom k).map (s3StepOfIndexed d)) = true := by
  induction l with
  | nil => intro k; rfl
  | cons x xs ih =>
    intro k
    simp only [List.enumFrom, List.map, ordinalsFrom, s3StepOfIndexed]
    simp [ih (k + 1)]

/-- C2 (counterexample): a project produced by the pipeline's AI-extraction
path carries the step ids of the provider response verbatim — with
`envBadOrdinals` (provider answers a single step with id 7) the returned
project violates `steps[i].ordinal == i+1`. -/
theorem C2_counterexample :
    ((processVoiceCommandWithAI envBadOrdinals [] "build" "0123").project.map
      (fun p => ordinalsContiguous p.steps)) = some false := by
  decide

/-- C2 (amended): step numbering is contiguous and 1-based for every path
that assigns ordinals itself — the three fallback templates, the
secondary-provider degraded project, and the hosted-dataset project
(whose ids are assigned positionally) — but AI-extracted steps are taken
verbatim from the provider response and need not satisfy it. -/
theorem C2_ordinals_amended :
    (∀ title, ordinalsContiguous (generateFallbackInstructions title) = true)
  ∧ (∀ (r : ExaResult) (q B : String), ordinalsContiguous (exaProject r q B).steps = true)
  ∧ (∀ d : S3Data, ordinalsContiguous (s3Project d).steps = true) := by
  refine ⟨?_, ?_, ?_⟩
  · intro title
    simp only [generateFallbackInstructions]
    by_cases h1 : strIncludes (strToLower title) "lego" = true
    · simp only [h1, if_true]
      decide
    · rw [Bool.not_eq_true] at h1
      simp only [h1, Bool.false_eq_true, if_false]
      by_cases h2 : (strIncludes (strToLower title) "shelf" ||
          strIncludes (strToLower title) "table" ||
          strIncludes (strToLower title) "desk" ||
          strIncludes (strToLower title) "chair") = true
      · simp only [h2, if_true]
        decide
      · rw [Bool.not_eq_true] at h2
        simp only [h2, Bool.false_eq_true, if_false]
        decide
  · intro r q B
    rfl
  · intro d
    show ordinalsFrom 1 ((d.steps.enumFrom 0).map (s3StepOfIndexed d)) = true
    exact ordinalsFrom_enumFrom_map d d.steps 0

/-! ### C6 — step synthesizer fallback templates -/

/-- C6 (counterexample): the synthesizer CAN return zero steps — when the
generation provider is configured and answers with a parseable empty
array (the literal text "[]"), the parsed empty list is returned
verbatim, refuting "the synthesizer never returns zero steps". -/
theorem C6_counterexample :
    envEmptyArray.anthropicConfigured = true
  ∧ (generateInstructionsFromPDF envEmptyArray "Acme Widget"
      "https://example.com/acme-manual.pdf").length = 0 := by
  decide

/-- C6 (amended): whenever the generation provider is unconfigured or its
response is unusable (no parseable array), the synthesizer returns the
keyword-selected fallback template — exactly the 5-step kit-build
template for a title containing "lego", otherwise exactly the 5-step
furniture template for a title containing "shelf"/"table"/"desk"/"chair",
otherwise exactly the 5-step generic template — and the fallback is never
empty; a configured provider's parsed response, however, is returned
verbatim even when it is the empty list. -/
theorem C6_synthesizer_amended (env : Env) (title pdfUrl : String) :
    (env.anthropicConfigured = false →
      generateInstructionsFromPDF env title pdfUrl = generateFallbackInstructions title)
  ∧ (env.anthropicParsedSteps title pdfUrl = none →
      generateInstructionsFromPDF env title pdfUrl = generateFallbackInstructions title)
  ∧ (strIncludes (strToLower title) "lego" = true →
      generateFallbackInstructions title = legoSteps)
  ∧ (strIncludes (strToLower title) "lego" = false →
      (strIncludes (strToLower title) "shelf" || strIncludes (strToLower title) "table" ||
       strIncludes (strToLower title) "desk" || strIncludes (strToLower title) "chair") = true →
      generateFallbackInstructions title = furnitureSteps)
  ∧ (strIncludes (strToLower title) "lego" = false →
      (strIncludes (strToLower title) "shelf" || strIncludes (strToLower title) "table" ||
       strIncludes (strToLower title) "desk" || strIncludes (strToLower title) "chair") = false →
      generateFallbackInstructions title = genericSteps)
  ∧ (generateFallbackInstructions title).length = 5
  ∧ (∀ steps, env.anthropicConfigured = true →
      env.anthropicParsedSteps title pdfUrl = some steps →
      generateInstructionsFromPDF env title pdfUrl = steps) := by
  refine ⟨?_, ?_, ?_, ?_, ?_, ?_, ?_⟩
  · intro h
    simp [generateInstructionsFromPDF, h]
  · intro h
    cases hk : env.anthropicConfigured <;> simp [generateInstructionsFromPDF, h, hk]
  · intro h1
    simp [generateFallbackInstructions, h1]
  · intro h1 h2
    rw [generateFallbackInstructions]
    simp only [h1, Bool.false_eq_true, if_false, h2, if_true]
  · intro h1 h2
    rw [generateFallbackInstructions]
    simp only [h1, Bool.false_eq_true, if_false, h2]
  · rw [generateFallbackInstructions]
    by_cases h1 : strIncludes (strToLower title) "lego" = true
    · simp only [h1, if_true]
      decide
    · rw [Bool.not_eq_true] at h1
      simp only [h1, Bool.false_eq_true, if_false]
      by_cases h2 : (strIncludes (strToLower title) "shelf" ||
          strIncludes (strToLower title) "table" ||
          strIncludes (strToLower title) "desk" ||
          strIncludes (strToLower title) "chair") = true
      · simp only [h2, if_true]
        decide
      · rw [Bool.not_eq_true] at h2
        simp only [h2, Bool.false_eq_true, if_false]
        decide
  · intro steps hk hs
    simp [generateInstructionsFromPDF, hk, hs]

/-- C6 (witness): a lego title with no provider yields exactly the kit
template; a furniture title the furniture template; anything else the
generic template. -/
theorem C6_synthesizer_amended_witness :
    generateInstructionsFromPDF envOffline "LEGO Star Wars X-Wing 75355" "" = legoSteps
  ∧ generateInstructionsFromPDF envOffline "SONGMICS 5-Tier Shelf" "" = furnitureSteps
  ∧ generateInstructionsFromPDF envOffline "Acme Widget" "" = genericSteps := by
  refine ⟨?_, ?_, ?_⟩
  · rw [(C6_synthesizer_amended envOffline "LEGO Star Wars X-Wing 75355" "").1 rfl]
    exact (C6_synthesizer_amended envOffline "LEGO Star Wars X-Wing 75355" "").2.2.1 (by decide)
  · rw [(C6_synthesizer_amended envOffline "SONGMICS 5-Tier Shelf" "").1 rfl]
    exact (C6_synthesizer_amended envOffline "SONGMICS 5-Tier Shelf" "").2.2.2.1
      (by decide) (by decide)
  · rw [(C6_synthesizer_amended envOffline "Acme Widget" "").1 rfl]
    exact (C6_synthesizer_amended envOffline "Acme Widget" "").2.2.2.2.1
      (by decide) (by decide)

/-! ### C7 — manual locator is first-match -/

theorem find?_skip_nonmatching {α : Type} (p : α → Bool) (x : α) :
    ∀ (pre suf : List α), (∀ y ∈ pre, p y = false) → p x = true →
      (pre ++ x :: suf).find? p = some x := by
  intro pre
  induction pre with
  | nil =>
    intro suf _ hx
    simpa using List.find?_cons_of_pos _ hx
  | cons y ys ih =>
    intro suf hpre hx
    have hy : p y = false := hpre y (by simp)
    rw [List.cons_append, List.find?_cons_of_neg _ (by simp [hy])]
    exact ih suf (fun z hz => hpre z (by simp [hz])) hx

/-- C7: the manual locator returns the first result in list order passing
the manual-likelihood test `isPDFItem` even when later results also pass
it, returns absent when no result (or no result set) passes, and a link
that ends in or contains ".pdf" passes the test.  No scoring or
reordering: the result is determined by `List.find?` over the given
order. -/
theorem C7_manual_locator_first_match :
    (∀ (pre suf : List SearchItem) (x : SearchItem),
        (∀ y ∈ pre, isPDFItem y = false) → isPDFItem x = true →
        findFirstValidPDF (some ⟨pre ++ x :: suf⟩) = some (mkPDFCandidate x))
  ∧ (∀ items : List SearchItem, (∀ y ∈ items, isPDFItem y = false) →
        findFirstValidPDF (some ⟨items⟩) = none)
  ∧ findFirstValidPDF none = none
  ∧ (∀ item : SearchItem,
        (strEndsWith (strToLower (item.link.getD "")) ".pdf" ||
         strIncludes (strToLower (item.link.getD "")) ".pdf") = true →
        isPDFItem item = true) := by
  refine ⟨?_, ?_, rfl, ?_⟩
  · intro pre suf x hpre hx
    simp only [findFirstValidPDF]
    rw [find?_skip_nonmatching isPDFItem x pre suf hpre hx]
    rfl
  · intro items h
    simp only [findFirstValidPDF]
    rw [List.find?_eq_none.mpr (fun x hx => by simp [h x hx])]
    rfl
  · intro item h
    rcases (Bool.or_eq_true _ _).mp h with h1 | h1
    · simp [isPDFItem, h1]
    · simp [isPDFItem, h1]

/-- C7 (witness): with a non-manual first hit and two qualifying PDF hits,
the locator returns the earlier PDF hit, not the later one. -/
theorem C7_manual_locator_first_match_witness :
    findFirstValidPDF (some ⟨[itemAcme] ++ itemManualPDF :: [itemOtherPDF]⟩)
      = some (mkPDFCandidate itemManualPDF) :=
  C7_manual_locator_first_match.1 [itemAcme] [itemOtherPDF] itemManualPDF
    (by decide) (by decide)

/-! ### C5 — step index stays in range -/

theorem stepIndexInv_handleProjectSelection (st : SessState) (pid : String)
    (h : stepIndexInv st) : stepIndexInv (handleProjectSelection st pid) := by
  cases hfp : findProject st.availableProjects pid with
  | none =>
    simp only [handleProjectSelection, hfp]
    exact h
  | some pr =>
    simp only [handleProjectSelection, hfp]
    intro p hp hts
    have hp' : some pr = some p := hp
    cases hp'
    show 0 < pr.totalSteps
    omega

theorem stepIndexInv_handleNextStep (st : SessState) (h : stepIndexInv st) :
    stepIndexInv (handleNextStep st) := by
  cases hcp : st.currentProject with
  | none =>
    simp only [handleNextStep, hcp]
    exact h
  | some q =>
    by_cases hlt : st.currentStep < q.totalSteps - 1
    · simp only [handleNextStep, hcp, hlt, if_true]
      intro p hp hts
      have hp' : some q = some p := hp
      cases hp'
      show st.currentStep + 1 < q.totalSteps
      omega
    · simp only [handleNextStep, hcp, hlt, if_false]
      intro p hp hts
      have hp' : some q = some p := hp
      cases hp'
      show st.currentStep < q.totalSteps
      exact h q hcp hts

theorem stepIndexInv_handlePreviousStep (st : SessState) (h : stepIndexInv st) :
    stepIndexInv (handlePreviousStep st) := by
  cases hcp : st.currentProject with
  | none =>
    simp only [handlePreviousStep, hcp]
    exact h
  | some q =>
    by_cases hz : st.currentStep ≤ 0
    · simp only [handlePreviousStep, hcp, hz, if_true]
      exact h
    · simp only [handlePreviousStep, hcp, hz, if_false]
      intro p hp hts
      have hp' : some q = some p := hp
      cases hp'
      show st.currentStep - 1 < q.totalSteps
      have := h q hcp hts
      omega

theorem stepIndexInv_processVoiceCommand (st : SessState) (bc : Option String) (cmd : String)
    (h : stepIndexInv st) : stepIndexInv (processVoiceCommand st bc cmd) := by
  cases hap : st.appState with
  | welcome =>
    simp only [processVoiceCommand, hap]
    exact h
  | selecting =>
    cases bc with
    | some b =>
      simp only [processVoiceCommand, hap]
      split
      · exact stepIndexInv_handleProjectSelection st _ h
      · split
        · exact stepIndexInv_handleProjectSelection st _ h
        · exact h
    | none =>
      simp only [processVoiceCommand, hap]
      split
      · exact stepIndexInv_handleProjectSelection st _ h
      · exact h
  | building =>
    cases hcp : st.currentProject with
    | none =>
      simp only [processVoiceCommand, hap, hcp]
      exact h
    | some q =>
      simp only [processVoiceCommand, hap, hcp]
      split
      · exact stepIndexInv_handleNextStep st h
      · split
        · exact stepIndexInv_handlePreviousStep st h
        · split
          · exact h
          · split
            · intro p hp hts
              show (0 : Nat) < p.totalSteps
              omega
            · exact h
  | completed =>
    simp only [processVoiceCommand, hap]
    split
    · intro p hp hts
      have hp' : (none : Option Project) = some p := hp
      cases hp'
    · exact h

/-- C5: for sessions whose active project has `totalSteps ≥ 1` the 0-based
step index stays in `[0, totalSteps)` under every voice command (and
hence, by induction, under every command sequence); a "next" command at
index `totalSteps - 1` moves the session to the completed phase with the
index unchanged, and a "back"/"previous" command at index 0 leaves the
index at 0. -/
theorem C5_step_index_safety (st : SessState) (bc : Option String) (cmd : String) :
    (stepIndexInv st → stepIndexInv (processVoiceCommand st bc cmd))
  ∧ (∀ p, st.appState = .building → st.currentProject = some p → 1 ≤ p.totalSteps →
      st.currentStep = p.totalSteps - 1 →
      (strIncludes cmd "next" || strIncludes cmd "continue" ||
       strIncludes cmd "forward") = true →
      (processVoiceCommand st bc cmd).appState = .completed ∧
      (processVoiceCommand st bc cmd).currentStep = st.currentStep)
  ∧ (∀ p, st.appState = .building → st.currentProject = some p → st.currentStep = 0 →
      (strIncludes cmd "next" || strIncludes cmd "continue" ||
       strIncludes cmd "forward") = false →
      (strIncludes cmd "back" || strIncludes cmd "previous" ||
       strIncludes cmd "last") = true →
      (processVoiceCommand st bc cmd).currentStep = 0)
  ∧ (∀ script : List (Option String × String), stepIndexInv st →
      stepIndexInv (script.foldl (fun s c => processVoiceCommand s c.1 c.2) st)) := by
  refine ⟨stepIndexInv_processVoiceCommand st bc cmd, ?_, ?_, ?_⟩
  · intro p hap hcp hts hstep hnext
    have hlt : ¬ st.currentStep < p.totalSteps - 1 := by omega
    simp only [processVoiceCommand, hap, hcp, hnext, if_true, handleNextStep, hlt, if_false]
    exact ⟨trivial, by first | rfl | trivial⟩
  · intro p hap hcp hz hnotnext hback
    have hle : st.currentStep ≤ 0 := by omega
    simp only [processVoiceCommand, hap, hcp, hnotnext, Bool.false_eq_true, if_false,
      hback, if_true, handlePreviousStep, hle]
    exact hz
  · intro script
    induction script generalizing st with
    | nil => intro h; exact h
    | cons c cs ih =>
      intro h
      exact ih _ (stepIndexInv_processVoiceCommand st c.1 c.2 h)

/-- C5 (witness): a session in building phase at the last index of a 5-step
project moves to completed with the index unchanged on "next". -/
theorem C5_step_index_safety_witness :
    (processVoiceCommand
      { appState := .building, currentProject := some projAcme, currentStep := 4
      , availableProjects := [("barcode_0123", projAcme)], stepsGenerated := true }
      (some "0123") "next step").appState = .completed
  ∧ (processVoiceCommand
      { appState := .building, currentProject := some projAcme, currentStep := 4
      , availableProjects := [("barcode_0123", projAcme)], stepsGenerated := true }
      (some "0123") "next step").currentStep = 4 :=
  (C5_step_index_safety
    { appState := .building, currentProject := some projAcme, currentStep := 4
    , availableProjects := [("barcode_0123", projAcme)], stepsGenerated := true }
    (some "0123") "next step").2.1 projAcme rfl rfl (by decide) (by decide) (by decide)

/-! ### C8 — token source staleness behaviour -/

/-- C8 (counterexample): absent is NOT returned only on fetch failure with
an empty cache — a cache populated with "123" that has gone stale,
followed by a successful fetch whose response carries no barcode value,
yields absent even though a cached value exists and the fetch did not
fail. -/
theorem C8_counterexample :
    (⟨some "123", 0⟩ : BarcodeState).cachedBarcode = some "123"
  ∧ (getCurrentBarcode ⟨some "123", 0⟩ 40000 (.success none)).1 = none := by
  decide

/-- C8 (amended): while the cache is fresh (age under the 30s TTL) the
cached value is returned and the fetch outcome is irrelevant; a thrown
fetch error always returns the cached value, however stale, absent
exactly when no cache was ever populated; and altogether absent is
returned exactly when the fresh-cache test fails and either the fetch
succeeded without a barcode value, or it failed with no cache ever
populated. -/
theorem C8_token_source_amended (st : BarcodeState) (now : Nat) (f : FetchOutcome) :
    (st.cachedBarcode.isSome = true → now - st.lastFetch < cacheTimeout →
      ∀ f', getCurrentBarcode st now f' = (st.cachedBarcode, st))
  ∧ (f = .failure → getCurrentBarcode st now f = (st.cachedBarcode, st))
  ∧ ((getCurrentBarcode st now f).1 = none ↔
      ¬(st.cachedBarcode.isSome = true ∧ now - st.lastFetch < cacheTimeout) ∧
      (f = .success none ∨ (f = .failure ∧ st.cachedBarcode = none))) := by
  refine ⟨?_, ?_, ?_⟩
  · intro hsome httl f'
    simp only [getCurrentBarcode, if_pos (And.intro hsome httl)]
  · intro hf
    subst hf
    by_cases hfresh : st.cachedBarcode.isSome = true ∧ now - st.lastFetch < cacheTimeout
    · simp only [getCurrentBarcode, if_pos hfresh]
    · simp only [getCurrentBarcode, if_neg hfresh]
  · by_cases hfresh : st.cachedBarcode.isSome = true ∧ now - st.lastFetch < cacheTimeout
    · simp only [getCurrentBarcode, if_pos hfresh]
      constructor
      · intro habs
        rw [habs] at hfresh
        simp at hfresh
      · intro ⟨hnf, _⟩
        exact absurd hfresh hnf
    · simp only [getCurrentBarcode, if_neg hfresh]
      cases f with
      | success b =>
        cases b with
        | none => simp [hfresh]
        | some v => simp
      | failure =>
        cases hb : st.cachedBarcode with
        | none => simp [hfresh, hb]
        | some v => simp [hb]

/-- C8 (witness): a fresh cache is returned unchanged regardless of the
fetch outcome, and a stale cache survives a failed fetch. -/
theorem C8_token_source_amended_witness :
    getCurrentBarcode ⟨some "123", 0⟩ 5000 .failure = (some "123", ⟨some "123", 0⟩)
  ∧ getCurrentBarcode ⟨some "123", 0⟩ 99999 .failure = (some "123", ⟨some "123", 0⟩) :=
  ⟨(C8_token_source_amended ⟨some "123", 0⟩ 5000 .failure).1 (by decide) (by decide) .failure,
   (C8_token_source_amended ⟨some "123", 0⟩ 99999 .failure).2.1 rfl⟩

/-! ### C10 — welcome-phase re-entry guard -/

/-- C10 (counterexample): two commands arriving in the welcome phase
before the first resolution settles start two concurrent resolutions —
the `stepsGenerated` flag is still false while the first resolution is
in flight, so it does not guard re-entry. -/
theorem C10_counterexample :
    (concStep (⟨.welcome, false, 0⟩ : ConcState) .command).inFlight = 1
  ∧ (concStep (concStep (⟨.welcome, false, 0⟩ : ConcState) .command) .command).inFlight = 2 := by
  decide

/-- C10 (amended): the `stepsGenerated` flag suppresses further
resolutions only once set: a welcome-phase command with the flag unset
always starts another resolution (even with one already in flight), the
flag is set exactly when an in-flight resolution settles successfully,
and once set it stays set (within welcome-phase processing), after which
commands are no-ops. -/
theorem C10_resolution_guard_amended (st : ConcState) :
    (st.stepsGenerated = true → concStep st .command = st)
  ∧ (st.appState = .welcome → st.stepsGenerated = false →
      (concStep st .command).inFlight = st.inFlight + 1)
  ∧ (0 < st.inFlight → (concStep st (.settle true)).stepsGenerated = true)
  ∧ (∀ e, st.stepsGenerated = true → (concStep st e).stepsGenerated = true) := by
  refine ⟨?_, ?_, ?_, ?_⟩
  · intro hflag
    simp [concStep, hflag]
  · intro hap hflag
    simp [concStep, hap, hflag]
  · intro hin
    simp [concStep, hin]
  · intro e hflag
    cases e with
    | command => simp [concStep, hflag]
    | settle success =>
      by_cases hin : 0 < st.inFlight
      · cases success <;> simp [concStep, hin, hflag]
      · simp [concStep, hin, hflag]

/-- C10 (witness): after a successful settle, a further welcome-phase
command starts no new resolution. -/
theorem C10_resolution_guard_amended_witness :
    concStep (⟨.welcome, true, 0⟩ : ConcState) .command = ⟨.welcome, true, 0⟩ :=
  (C10_resolution_guard_amended ⟨.welcome, true, 0⟩).1 rfl
